import Mathlib

/-!
Shallow embedding of the container-benchmark harness
(`include/bench.hpp` and the benchmark catalog translation unit)
and proofs about its specified behaviour.

Machine model: the code documents itself as targeting Clang/GCC on the
usual LP64 platforms, so `sizeof(std::size_t) = sizeof(uintptr_t) = 8`
and `alignof(std::size_t) = 8`.
-/

namespace Bench

/-! ## Variadic policy runner (`bench.hpp`, lines 27-36)

A test policy `Test<Container>::run(container, size)` mutates the container
in place; we model a policy as a state transformer `C → Nat → C`.
The C++ runner is a pair of overloads: the empty pack does nothing, and
`run<Test, Rest...>` first applies `Test` and then recurses on `Rest...`
with the same (mutated) container reference and the same size. -/

def run {C : Type} : List (C → Nat → C) → C → Nat → C
  | [], c, _ => c
  | p :: ps, c, n => run ps (p c n) n

/-! ## Display-label sanitisation (`bench.hpp`, lines 120-129)

`is_tag(c)` is `std::isalnum(c) || c == '_'` in the "C" locale, i.e. the
ASCII letters and digits, plus the underscore.  `tag` replaces every
character failing `is_tag` with `'_'` (via `std::replace_if`) and returns
the resulting string; we model strings as lists of characters. -/

def is_tag (c : Char) : Bool :=
  (c.isAlpha || c.isDigit) || c == '_'

def tag (name : List Char) : List Char :=
  name.map (fun c => if !is_tag c then '_' else c)

/-! ## Type classification predicates (catalog translation unit, lines 27-74)

A C++ value type is represented by the compile-time attributes the
predicates consult: triviality, copy/move constructibility and
assignability, the `noexcept`-ness of the move operations, and its
size in bytes. -/

structure TypeTraits where
  is_trivial : Bool
  is_copy_constructible : Bool
  is_copy_assignable : Bool
  is_move_constructible : Bool
  is_move_assignable : Bool
  is_nothrow_move_constructible : Bool
  is_nothrow_move_assignable : Bool
  size : Nat
  deriving DecidableEq, Repr

def is_trivial_of_size (T : TypeTraits) (size : Nat) : Bool :=
  T.is_trivial && (T.size == size)

def is_non_trivial_of_size (T : TypeTraits) (size : Nat) : Bool :=
  !T.is_trivial && (T.size == size)
    && T.is_copy_constructible && T.is_copy_assignable
    && T.is_move_constructible && T.is_move_assignable

def is_non_trivial_nothrow_movable (T : TypeTraits) : Bool :=
  !T.is_trivial
    && T.is_nothrow_move_constructible && T.is_nothrow_move_assignable

def is_non_trivial_non_nothrow_movable (T : TypeTraits) : Bool :=
  !T.is_trivial
    && T.is_move_constructible && T.is_move_assignable
    && !T.is_nothrow_move_constructible && !T.is_nothrow_move_assignable

def is_non_trivial_non_movable (T : TypeTraits) : Bool :=
  !T.is_trivial
    && T.is_copy_constructible && T.is_copy_assignable
    && !T.is_move_constructible && !T.is_move_assignable

/-- `sizeof(std::size_t)` on the documented Clang/GCC LP64 targets. -/
def sizeof_size_t : Nat := 8

def is_small (T : TypeTraits) : Bool :=
  T.size ≤ sizeof_size_t

/-! ## The Bencher (`bench.hpp`, lines 23 and 52-107)

`Bencher<...>::functor<N>::operator()` runs, for one size `N`:

```
std::size_t duration = 0;
for (std::size_t i = 0; i < REPEAT; ++i) {
    auto wrapper = WrapperType();                               // arena built
    auto container = CreatePolicy<ContainerType>::make(N, wrapper.allocator);
    Clock::time_point t0 = Clock::now();
    run<TestPolicy...>(container, N);
    Clock::time_point t1 = Clock::now();
    duration += std::chrono::duration_cast<DurationUnit>(t1 - t0).count();
}   // container destroyed, then wrapper (arena) destroyed, each iteration
graphs::new_result(type, std::to_string(N), duration / REPEAT);
CreatePolicy<ContainerType>::clean();
```

We model one invocation as a state machine threading the `duration`
accumulator and an event trace through the loop.  The elapsed wall-clock
duration of repetition `i` (the value of
`duration_cast<DurationUnit>(t1 - t0).count()`, a non-negative tick
count) is an oracle `elapsed : Nat → Nat`. -/

/-- Number of repetitions of each test (`bench.hpp`, line 23). -/
def REPEAT : Nat := 7

/-- One observable step of `functor<N>::operator()`; `rep` is the loop
index of the repetition the step belongs to. -/
inductive Event where
  /-- `auto wrapper = WrapperType();` — arena and allocator view built. -/
  | constructWrapper (rep : Nat)
  /-- `auto container = CreatePolicy<ContainerType>::make(N, wrapper.allocator);` -/
  | makeContainer (rep : Nat)
  /-- `Clock::time_point t0 = Clock::now();` -/
  | clockStart (rep : Nat)
  /-- `run<TestPolicy...>(container, N);` -/
  | policyChain (rep : Nat)
  /-- `Clock::time_point t1 = Clock::now();` -/
  | clockStop (rep : Nat)
  /-- `duration += duration_cast<DurationUnit>(t1 - t0).count();` -/
  | accumulate (rep : Nat)
  /-- end of the loop body: `container` goes out of scope. -/
  | destroyContainer (rep : Nat)
  /-- end of the loop body: `wrapper` (and its arena) goes out of scope. -/
  | destroyWrapper (rep : Nat)
  /-- `graphs::new_result(type, std::to_string(N), duration / REPEAT);` -/
  | newResult
  /-- `CreatePolicy<ContainerType>::clean();` -/
  | clean
  deriving DecidableEq, Repr

/-- The `duration` accumulator together with the trace emitted so far. -/
structure BenchState where
  duration : Nat
  events : List Event
  deriving Repr

/-- The body of the `for(std::size_t i=0; i < REPEAT; ++i)` loop:
construct wrapper and container, take the two timestamps around the
policy chain, add the elapsed ticks to `duration`, then destroy the
container and the wrapper in reverse declaration order. -/
def repetitionStep (elapsed : Nat → Nat) (s : BenchState) (i : Nat) : BenchState :=
  { duration := s.duration + elapsed i
    events := s.events ++
      [.constructWrapper i, .makeContainer i, .clockStart i, .policyChain i,
       .clockStop i, .accumulate i, .destroyContainer i, .destroyWrapper i] }

/-- One data point handed to `graphs::new_result`: the size label
(`std::to_string(N)`) and the reported value (`duration / REPEAT`,
integer division on `std::size_t`). -/
structure BenchReport where
  size : Nat
  value : Nat
  deriving DecidableEq, Repr

/-- `functor<N>::operator()`: the loop, then the report, then the
creation policy's cleanup.  Returns the data point submitted to the
report sink and the full event trace. -/
def functorRun (N : Nat) (elapsed : Nat → Nat) : BenchReport × List Event :=
  let s := (List.range REPEAT).foldl (repetitionStep elapsed) ⟨0, []⟩
  (⟨N, s.duration / REPEAT⟩, s.events ++ [.newResult, .clean])

/-- The event trace of one `functor<N>::operator()` call, which does not
depend on the size or on the measured durations. -/
def benchEvents : List Event :=
  ((List.range REPEAT).foldl (repetitionStep fun _ => 0) ⟨0, []⟩).events
    ++ [.newResult, .clean]

/-! Boolean recognisers for the events, used to locate steps in a trace. -/

def isConstructWrapper (i : Nat) : Event → Bool
  | .constructWrapper j => j == i
  | _ => false

def isMakeContainer (i : Nat) : Event → Bool
  | .makeContainer j => j == i
  | _ => false

def isClockStart (i : Nat) : Event → Bool
  | .clockStart j => j == i
  | _ => false

def isPolicyChain (i : Nat) : Event → Bool
  | .policyChain j => j == i
  | _ => false

def isClockStop (i : Nat) : Event → Bool
  | .clockStop j => j == i
  | _ => false

def isAccumulate (i : Nat) : Event → Bool
  | .accumulate j => j == i
  | _ => false

def isDestroyContainer (i : Nat) : Event → Bool
  | .destroyContainer j => j == i
  | _ => false

def isDestroyWrapper (i : Nat) : Event → Bool
  | .destroyWrapper j => j == i
  | _ => false

def isAnyAccumulate : Event → Bool
  | .accumulate _ => true
  | _ => false

def isClean : Event → Bool
  | .clean => true
  | _ => false

def isNewResult : Event → Bool
  | .newResult => true
  | _ => false

/-- The events of repetition block `i` occur exactly once each, the
wrapper and the container are constructed (in that order) before the
start timestamp, exactly the policy chain stands between the two
timestamps, the elapsed duration is added to the accumulator after the
stop timestamp, and only then — at the end of the block — are the
container and the wrapper (the arena) destroyed, in reverse declaration
order. -/
abbrev repBlockOk (es : List Event) (i : Nat) : Prop :=
  es.countP (isConstructWrapper i) = 1 ∧
  es.countP (isMakeContainer i) = 1 ∧
  es.countP (isClockStart i) = 1 ∧
  es.countP (isPolicyChain i) = 1 ∧
  es.countP (isClockStop i) = 1 ∧
  es.countP (isAccumulate i) = 1 ∧
  es.countP (isDestroyContainer i) = 1 ∧
  es.countP (isDestroyWrapper i) = 1 ∧
  es.findIdx (isConstructWrapper i) < es.findIdx (isMakeContainer i) ∧
  es.findIdx (isMakeContainer i) < es.findIdx (isClockStart i) ∧
  es.findIdx (isClockStart i) + 1 = es.findIdx (isPolicyChain i) ∧
  es.findIdx (isPolicyChain i) + 1 = es.findIdx (isClockStop i) ∧
  es.findIdx (isClockStop i) < es.findIdx (isAccumulate i) ∧
  es.findIdx (isAccumulate i) < es.findIdx (isDestroyContainer i) ∧
  es.findIdx (isDestroyContainer i) < es.findIdx (isDestroyWrapper i)

/-- The repetition blocks `i` and `j` do not overlap: one wrapper's
whole lifetime (construction to destruction) ends before the other's
begins, so no arena or allocator view is shared across repetitions. -/
abbrev repBlocksDisjoint (es : List Event) (i j : Nat) : Prop :=
  es.findIdx (isDestroyWrapper i) < es.findIdx (isConstructWrapper j) ∨
  es.findIdx (isDestroyWrapper j) < es.findIdx (isConstructWrapper i)

/-! ## Size lists and `Bencher::bench` (`bench.hpp`, lines 38-50 and 94-105) -/

/-- A struct of our sizes, so we can define them in a template
(`bench.hpp`, lines 39-50). -/
structure SizesType where
  i0 : Nat
  i1 : Nat
  i2 : Nat
  i3 : Nat
  i4 : Nat
  i5 : Nat
  i6 : Nat
  i7 : Nat
  i8 : Nat
  i9 : Nat
  deriving DecidableEq, Repr

/-- The ten sizes of a `SizesType`, in field order. -/
def SizesType.toList (S : SizesType) : List Nat :=
  [S.i0, S.i1, S.i2, S.i3, S.i4, S.i5, S.i6, S.i7, S.i8, S.i9]

/-- `Bencher<...>::bench`: invokes `functor<Sizes.ik>()(type)` for
`k = 0, ..., 9` in that order; each invocation submits exactly one data
point to `graphs::new_result`.  The clock oracle takes the invocation
index and the repetition index. -/
def bench (S : SizesType) (elapsed : Nat → Nat → Nat) : List BenchReport :=
  [(functorRun S.i0 (elapsed 0)).1,
   (functorRun S.i1 (elapsed 1)).1,
   (functorRun S.i2 (elapsed 2)).1,
   (functorRun S.i3 (elapsed 3)).1,
   (functorRun S.i4 (elapsed 4)).1,
   (functorRun S.i5 (elapsed 5)).1,
   (functorRun S.i6 (elapsed 6)).1,
   (functorRun S.i7 (elapsed 7)).1,
   (functorRun S.i8 (elapsed 8)).1,
   (functorRun S.i9 (elapsed 9)).1]

/-! ## The benchmark catalog (catalog translation unit)

The value types of the catalog (lines 145-155) with their sizes on the
documented Clang/GCC LP64 targets (`std::string` is 32 bytes in both
libstdc++ and libc++), and the size list each family hard-codes. -/

inductive ValueType where
  | trivialSmall
  | trivialMedium
  | trivialLarge
  | trivialHuge
  | trivialMonster
  | nonTrivialStringMovable
  | nonTrivialStringMovableNoExcept
  | nonTrivialArrayMedium
  deriving DecidableEq, Repr, Fintype

/-- `sizeof` of each cataloged value type. -/
def sizeofValue : ValueType → Nat
  | .trivialSmall => 8
  | .trivialMedium => 32
  | .trivialLarge => 128
  | .trivialHuge => 1024
  | .trivialMonster => 4 * 1024
  | .nonTrivialStringMovable => 40
  | .nonTrivialStringMovableNoExcept => 40
  | .nonTrivialArrayMedium => 32

inductive Family where
  | fill_back
  | emplace_back
  | fill_front
  | emplace_front
  | linear_search
  | random_insert
  | random_remove
  | sort
  | destruction
  | number_crunching
  deriving DecidableEq, Repr, Fintype

/-- The size list each benchmark family hard-codes. -/
def familySizes : Family → SizesType
  | .fill_back =>
      ⟨100000, 200000, 300000, 400000, 500000, 600000, 700000, 800000, 900000, 1000000⟩
  | .emplace_back =>
      ⟨100000, 200000, 300000, 400000, 500000, 600000, 700000, 800000, 900000, 1000000⟩
  | .fill_front =>
      ⟨10000, 20000, 30000, 40000, 50000, 60000, 70000, 80000, 90000, 100000⟩
  | .emplace_front =>
      ⟨10000, 20000, 30000, 40000, 50000, 60000, 70000, 80000, 90000, 100000⟩
  | .linear_search =>
      ⟨1000, 2000, 3000, 4000, 5000, 6000, 7000, 8000, 9000, 10000⟩
  | .random_insert =>
      ⟨10000, 20000, 30000, 40000, 50000, 60000, 70000, 80000, 90000, 100000⟩
  | .random_remove =>
      ⟨10000, 20000, 30000, 40000, 50000, 60000, 70000, 80000, 90000, 100000⟩
  | .sort =>
      ⟨100000, 200000, 300000, 400000, 500000, 600000, 700000, 800000, 900000, 1000000⟩
  | .destruction =>
      ⟨100000, 200000, 300000, 400000, 500000, 600000, 700000, 800000, 900000, 1000000⟩
  | .number_crunching =>
      ⟨10000, 20000, 30000, 40000, 50000, 60000, 70000, 80000, 90000, 100000⟩

/-- Every size list appearing in the benchmark catalog. -/
def catalogSizeLists : List SizesType :=
  [familySizes .fill_back, familySizes .emplace_back, familySizes .fill_front,
   familySizes .emplace_front, familySizes .linear_search,
   familySizes .random_insert, familySizes .random_remove, familySizes .sort,
   familySizes .destruction, familySizes .number_crunching]

/-! ## Family dispatch (`bench_types`, `bench_all`, `main`) -/

/-- `bench_types<Benchmark, Types...>()` runs `Benchmark<T>::run()` for
each `T` of the pack, in order (`bench.hpp`, lines 109-118).  We record
which (family, value type) pairs are executed. -/
def bench_types (B : Family) : List ValueType → List (Family × ValueType)
  | [] => []
  | t :: ts => (B, t) :: bench_types B ts

/-- `bench_all<Types...>()` (catalog translation unit, lines 343-357):
nine families over the full pack, then `bench_number_crunching` over
`TrivialSmall, TrivialMedium` only. -/
def bench_all (types : List ValueType) : List (Family × ValueType) :=
  bench_types .fill_back types ++
  bench_types .emplace_back types ++
  bench_types .fill_front types ++
  bench_types .emplace_front types ++
  bench_types .linear_search types ++
  bench_types .random_insert types ++
  bench_types .random_remove types ++
  bench_types .sort types ++
  bench_types .destruction types ++
  bench_types .number_crunching [.trivialSmall, .trivialMedium]

/-- The value-type catalog `main` passes to `bench_all` (lines 361-370). -/
def mainTypes : List ValueType :=
  [.trivialSmall, .trivialMedium, .trivialLarge, .trivialHuge, .trivialMonster,
   .nonTrivialStringMovable, .nonTrivialStringMovableNoExcept,
   .nonTrivialArrayMedium]

/-- The (family, value type) executions of the full benchmark run. -/
def fullRun : List (Family × ValueType) :=
  bench_all mainTypes

/-! ## Arena capacity computation (`bench.hpp`, lines 62-72)

```
constexpr size_t NodeSize = sizeof(ValueType) + 2 * sizeof(uintptr_t);
constexpr size_t BufferSize = sizeof(NodeSize) * (N + 1000);
constexpr size_t Align = alignof(NodeSize);
```

`NodeSize` is itself an object of type `size_t`, so `sizeof(NodeSize)`
is `sizeof(size_t)` — the value computed on the first line is never
used — and `alignof(NodeSize)` (a GNU extension applying `alignof` to an
expression) is `alignof(size_t)`. -/

/-- `sizeof(uintptr_t)` on the documented targets. -/
def sizeof_uintptr : Nat := 8

/-- `alignof(std::size_t)` on the documented targets. -/
def alignof_size_t : Nat := 8

/-- Line 68: the assumed doubly-linked-list node size of the value type. -/
def NodeSize (T : ValueType) : Nat :=
  sizeofValue T + 2 * sizeof_uintptr

/-- Line 70 as written: `sizeof(NodeSize) * (N + 1000)`, where
`sizeof(NodeSize) = sizeof(size_t)`. -/
def BufferSize (_T : ValueType) (N : Nat) : Nat :=
  sizeof_size_t * (N + 1000)

/-- Line 71 as written: `alignof(NodeSize) = alignof(size_t)`. -/
def ArenaAlign (_T : ValueType) : Nat :=
  alignof_size_t

/-- The capacity line 70 was evidently meant to compute (and the one the
spec describes): the assumed node size times the expected allocation
bound `N + 1000`. -/
def intendedBufferSize (T : ValueType) (N : Nat) : Nat :=
  NodeSize T * (N + 1000)

/-! ## Helper lemmas -/

theorem run_eq_foldl {C : Type} (ps : List (C → Nat → C)) (c : C) (n : Nat) :
    run ps c n = ps.foldl (fun x p => p x n) c := by
  induction ps generalizing c with
  | nil => rfl
  | cons p ps ih => simpa [run] using ih (p c n)

theorem run_append {C : Type} (ps qs : List (C → Nat → C)) (c : C) (n : Nat) :
    run (ps ++ qs) c n = run qs (run ps c n) n := by
  induction ps generalizing c with
  | nil => rfl
  | cons p ps ih => simpa [run] using ih (p c n)

theorem is_tag_underscore : is_tag '_' = true := by decide

theorem tag_idem_aux (s : List Char) : tag (tag s) = tag s := by
  induction s with
  | nil => rfl
  | cons c cs ih =>
      simp only [tag, List.map_cons, List.map_map] at *
      refine congrArg₂ List.cons ?_ ih
      by_cases h : is_tag c = true
      · simp [h]
      · simp [Bool.not_eq_true] at h
        simp [h, is_tag_underscore]

theorem functorRun_events (N : Nat) (elapsed : Nat → Nat) :
    (functorRun N elapsed).2 = benchEvents := rfl

theorem foldl_repetitionStep_duration (elapsed : Nat → Nat)
    (l : List Nat) (s : BenchState) :
    (l.foldl (repetitionStep elapsed) s).duration
      = s.duration + (l.map elapsed).sum := by
  induction l generalizing s with
  | nil => simp
  | cons a l ih => simp [List.foldl_cons, ih, repetitionStep, Nat.add_assoc]

/-! ## The claims -/

/-- C1: the claim states that the capacity the Bencher passes to the
allocator wrapper equals the assumed node size `sizeof(T) + 2 *
sizeof(uintptr_t)` times `N + 1000`.  The code's own comments say that
this is the intent, and the `NodeSize` value computed on line 68 is
otherwise unused, but line 70 multiplies by `sizeof(NodeSize)` — the
size (8) of the `size_t` object `NodeSize` — not by `NodeSize`.  At
`T = TrivialSmall`, `N = 100000` (the first fill_back size) the code
passes 808000 bytes where the claimed formula gives 2424000. -/
theorem c1_buffer_size_bug :
    BufferSize .trivialSmall 100000 = 808000 ∧
    intendedBufferSize .trivialSmall 100000 = 2424000 ∧
    BufferSize .trivialSmall 100000 ≠ intendedBufferSize .trivialSmall 100000 ∧
    ArenaAlign .trivialSmall = 8 := by
  refine ⟨by decide, by decide, by decide, rfl⟩

/-- C2 counterexample: the claim states that the creation policy's
cleanup step runs once per trial, i.e. `REPEAT = 7` times per
(combination, size) pair.  On the trace of one `functor<N>::operator()`
call (at the concrete size 100000 with all repetitions measuring 100
ticks) `clean` occurs exactly once, not 7 times. -/
theorem c2_counterexample :
    ((functorRun 100000 (fun _ => 100)).2.countP isClean = 1) ∧
    ¬ ((functorRun 100000 (fun _ => 100)).2.countP isClean = REPEAT) := by
  decide

/-- C2 (amended): for every size and every measured-duration oracle, the
cleanup step runs exactly once per (combination, size) pair, as the very
last step — after all `REPEAT` repetition blocks (in particular after
every arena has been destroyed) and after the mean has been reported. -/
theorem c2_clean_once_per_batch (N : Nat) (elapsed : Nat → Nat) :
    (functorRun N elapsed).2.countP isClean = 1 ∧
    (functorRun N elapsed).2.getLast? = some Event.clean ∧
    ∀ i : Fin REPEAT,
      (functorRun N elapsed).2.findIdx (isDestroyWrapper i.val) <
        (functorRun N elapsed).2.findIdx isClean := by
  rw [functorRun_events]
  decide

/-- C3: the value reported to the report sink for a size `N` is the sum
of the `REPEAT` per-repetition elapsed durations divided by `REPEAT`,
with `REPEAT = 7`, tagged with the size; the trace contains exactly
`REPEAT` duration accumulations (one measurement per repetition), and
each measured duration is a `Nat`, hence non-negative. -/
theorem c3_reported_mean (N : Nat) (elapsed : Nat → Nat) :
    (functorRun N elapsed).1.value
      = ((List.range REPEAT).map elapsed).sum / REPEAT ∧
    (functorRun N elapsed).1.size = N ∧
    REPEAT = 7 ∧
    (functorRun N elapsed).2.countP isAnyAccumulate = REPEAT := by
  refine ⟨?_, rfl, rfl, by rw [functorRun_events]; decide⟩
  show ((List.range REPEAT).foldl (repetitionStep elapsed) ⟨0, []⟩).duration / REPEAT
        = ((List.range REPEAT).map elapsed).sum / REPEAT
  rw [foldl_repetitionStep_duration]
  simp

/-- C4 counterexample: the claim states that the arena is released at
the end of the repetition block *before* the elapsed duration is added
to the accumulator.  In the trace of `functor<100000>::operator()` (all
repetitions measuring 100 ticks), for repetition 0 the accumulation
happens first and the wrapper (arena) is destroyed only afterwards. -/
theorem c4_counterexample :
    ¬ ((functorRun 100000 (fun _ => 100)).2.findIdx (isDestroyWrapper 0) <
       (functorRun 100000 (fun _ => 100)).2.findIdx (isAccumulate 0)) := by
  decide

set_option synthInstance.maxSize 2000

set_option synthInstance.maxHeartbeats 2000000

/-- C4 (amended): within every repetition block a fresh wrapper (arena)
and a fresh container are constructed before the start timestamp, only
the policy chain runs between the two timestamps, the elapsed duration
is accumulated after the stop timestamp, and the container and the
wrapper are destroyed *after* that accumulation, at the end of the
block; the arena lifetimes of any two distinct repetitions are disjoint,
so no arena or allocator view is shared across repetitions or trials. -/
theorem c4_fresh_arena_per_repetition (N : Nat) (elapsed : Nat → Nat)
    (i j : Fin REPEAT) :
    repBlockOk (functorRun N elapsed).2 i.val ∧
    (i = j ∨ repBlocksDisjoint (functorRun N elapsed).2 i.val j.val) := by
  rw [functorRun_events]
  revert i j
  decide

/-- C5: the policy chain runner applies the policies in exactly the
given list order — running a chain `ps ++ qs` is running `ps` first and
then `qs` on the resulting container — each policy receiving the evolving
state of the same container instance and the same size parameter, and the
runner itself contributes nothing beyond the policies (it is the plain
left fold of the policy applications). -/
theorem c5_run_chain_in_order {C : Type} (ps qs : List (C → Nat → C))
    (c : C) (n : Nat) :
    run (ps ++ qs) c n = run qs (run ps c n) n ∧
    run ps c n = ps.foldl (fun x p => p x n) c :=
  ⟨run_append ps qs c n, run_eq_foldl ps c n⟩

/-- C6: `Bencher::bench` submits exactly 10 data points, whose size tags
are the 10 elements of the size list in field order, each value
non-negative; and every size list in the benchmark catalog has 10
elements and is strictly increasing. -/
theorem c6_bench_ten_points (S : SizesType) (elapsed : Nat → Nat → Nat) :
    (bench S elapsed).length = 10 ∧
    (bench S elapsed).map BenchReport.size = S.toList ∧
    List.Forall (fun r => 0 ≤ r.value) (bench S elapsed) ∧
    List.Forall
      (fun L => (SizesType.toList L).length = 10 ∧
        List.Chain' (fun a b => a < b) (SizesType.toList L))
      catalogSizeLists := by
  refine ⟨rfl, rfl, ?_, ?_⟩
  · simp [bench, List.Forall]
  · norm_num [catalogSizeLists, familySizes, SizesType.toList, List.Forall,
      List.chain'_cons]

/-- C7: in the full benchmark run, the number-crunching family executes
exactly once for each of `TrivialSmall` and `TrivialMedium` and zero
times for every other cataloged value type. -/
theorem c7_number_crunching_gating :
    (fullRun.filter (fun e => e.1 == Family.number_crunching)
      = [(.number_crunching, .trivialSmall), (.number_crunching, .trivialMedium)]) ∧
    ∀ t : ValueType,
      fullRun.countP (fun e => e.1 == Family.number_crunching && e.2 == t)
        = if t = .trivialSmall ∨ t = .trivialMedium then 1 else 0 := by
  constructor
  · decide
  · decide

/-- C8: `is_non_trivial_non_nothrow_movable(T)` holds exactly when `T`
is not trivial, both move operations exist, and neither move operation
is `noexcept` (each fails to be guaranteed failure-free). -/
theorem c8_non_trivial_non_nothrow_movable_iff (T : TypeTraits) :
    is_non_trivial_non_nothrow_movable T = true ↔
      (T.is_trivial = false ∧
       T.is_move_constructible = true ∧
       T.is_move_assignable = true ∧
       T.is_nothrow_move_constructible = false ∧
       T.is_nothrow_move_assignable = false) := by
  simp [is_non_trivial_non_nothrow_movable, Bool.and_eq_true,
    Bool.not_eq_true', and_assoc]

/-- C9: `tag` maps a string to one of the same length in which every
character that is neither an ASCII letter or digit nor an underscore is
replaced by `'_'` and every other character is left unchanged, and it is
idempotent. -/
theorem c9_tag_sanitises (s : List Char) :
    (tag s).length = s.length ∧
    (∀ i : Nat, (tag s)[i]? =
      (s[i]?).map (fun c =>
        if (c.isAlpha || c.isDigit) || c == '_' then c else '_')) ∧
    tag (tag s) = tag s := by
  refine ⟨by simp [tag], ?_, tag_idem_aux s⟩
  intro i
  simp only [tag, List.getElem?_map]
  cases s[i]? with
  | none => rfl
  | some c =>
      simp only [Option.map_some', is_tag]
      rcases Bool.eq_false_or_eq_true ((c.isAlpha || c.isDigit) || c == '_')
        with hb | hb <;> simp [hb]

/-- C10: running the empty policy chain (the base-case overload of the
runner) performs no operation and returns the container unchanged. -/
theorem c10_run_empty_chain {C : Type} (c : C) (n : Nat) :
    run ([] : List (C → Nat → C)) c n = c := rfl

end Bench
